import Mathlib

/-!
Shallow embedding of the voice-assistant conversation engine.

Sources embedded here:
* `ConversationStateMachine` (state/StateMachine.ts): conversation states,
  the legal-transition table, `transitionTo`, `handleEvent` and its
  per-event handlers, plus the two `setTimeout` recovery timers
  (INTERRUPTED → LISTENING after 200 ms, ERROR → IDLE after 2 s),
  modelled as explicit timer steps.
* `ConversationOrchestrator` (handlers/Orchestrator.ts): the message-list
  construction of `getLLMResponse`, and the `current_turn` write performed
  by `processTurn`, modelled as an explicit step.
* `WebRTCHandler` (handlers/WebRTCHandler.ts): `calculateRMSEnergy` and the
  `performVAD` speech/silence logic with its silence timer.

Machine data (JS strings, numbers, arrays, maps) is modelled with `String`,
`Int`/`Nat`/`ℚ`, `List`, and association lists.  Timestamps are passed in
as explicit `Int` arguments (`Date.now()` in the source).
-/

namespace VoiceFSM

/-- The nine conversation states of `ConversationState` in types/index.ts. -/
inductive ConversationState where
  | IDLE
  | LISTENING
  | TRANSCRIBING
  | INTERPRETING
  | ANSWERING
  | SPEAKING
  | INTERRUPTED
  | ERROR
  | ENDED
deriving DecidableEq, Repr

open ConversationState

/-- `initializeTransitionRules`: the map from a state to the set of states it
may legally transition to.  The source map has no entry for `ENDED`
(`Map.get` returns `undefined` there), modelled as `none`. -/
def transitionRules : ConversationState → Option (List ConversationState)
  | IDLE => some [LISTENING, ENDED]
  | LISTENING => some [TRANSCRIBING, IDLE, INTERRUPTED, ENDED]
  | TRANSCRIBING => some [INTERPRETING, LISTENING, INTERRUPTED, ERROR, ENDED]
  | INTERPRETING => some [ANSWERING, INTERRUPTED, ERROR, ENDED]
  | ANSWERING => some [SPEAKING, INTERRUPTED, ERROR, ENDED]
  | SPEAKING => some [LISTENING, IDLE, INTERRUPTED, ERROR, ENDED]
  | INTERRUPTED => some [LISTENING, IDLE, ENDED]
  | ERROR => some [IDLE, LISTENING, ENDED]
  | ENDED => none

/-- The validity check inside `transitionTo`:
`!validTransitions || !validTransitions.has(newState)` means the request is
rejected; `legalTransition f t = true` exactly when the pair is in the table. -/
def legalTransition (f t : ConversationState) : Bool :=
  match transitionRules f with
  | none => false
  | some valid => valid.contains t

/-- One completed Q&A turn (`ConversationTurn` in types/index.ts); only the
fields the present development inspects are carried. -/
structure ConversationTurn where
  turn_id : String
  user_text : String
  assistant_text : String
deriving DecidableEq, Repr

/-- A final transcription result (`TranscriptionResult`); only `text` is
inspected by the state machine. -/
structure TranscriptionResult where
  text : String
deriving DecidableEq, Repr

/-- An LLM response (`LLMResponse`); only `text` is inspected. -/
structure LLMResponse where
  text : String
deriving DecidableEq, Repr

/-- A buffered audio chunk (`AudioChunk`); the state machine treats the
payload as opaque and only ever reads the buffer length. -/
structure AudioChunk where
  data : List Int
  timestamp : Int
deriving DecidableEq, Repr

/-- The `metadata` record attached to a transition.  The source passes an
untyped object; the handlers only ever attach one of these shapes. -/
inductive TransMeta where
  | noMeta
  | audioChunks (n : Nat)
  | transcript (t : String)
  | responseLength (n : Nat)
  | interruptedState (s : ConversationState)
  | errorMsg (m : String)
deriving DecidableEq, Repr

/-- A `StateTransition` record.  The `event` field is constantly
`EventType.STATE_CHANGE` in the source and is omitted. -/
structure StateTransition where
  from_state : ConversationState
  to_state : ConversationState
  timestamp : Int
  metadata : TransMeta
deriving DecidableEq, Repr

/-- `SessionMetrics`; `total_duration_ms` and `avg_latency_ms` are
initialised to 0 and never updated by the embedded code. -/
structure SessionMetrics where
  total_turns : Nat
  total_duration_ms : Nat
  avg_latency_ms : Nat
  interruption_count : Nat
  error_count : Nat
deriving DecidableEq, Repr

/-- A `Session` (types/index.ts), without the identity/config fields that no
embedded operation reads. -/
structure Session where
  state : ConversationState
  conversation_history : List ConversationTurn
  current_turn : Option ConversationTurn
  audio_buffer : List AudioChunk
  transcript_buffer : List TranscriptionResult
  pending_response : Option LLMResponse
  tts_stream_id : Option String
  metrics : SessionMetrics
  state_history : List StateTransition
  last_activity : Int
deriving DecidableEq, Repr

/-- The session built by `createSession`: state IDLE, empty buffers and
history, zeroed metrics. -/
def initialSession (now : Int) : Session :=
  { state := IDLE
    conversation_history := []
    current_turn := none
    audio_buffer := []
    transcript_buffer := []
    pending_response := none
    tts_stream_id := none
    metrics :=
      { total_turns := 0
        total_duration_ms := 0
        avg_latency_ms := 0
        interruption_count := 0
        error_count := 0 }
    state_history := []
    last_activity := now }

/-- The per-session core of `transitionTo`: check the table; on an illegal
request return `false` leaving the session untouched; on a legal one set the
state, append the transition record and bump `last_activity`. -/
def applyTransition (s : Session) (newState : ConversationState)
    (metadata : TransMeta) (now : Int) : Bool × Session :=
  if legalTransition s.state newState then
    (true,
      { s with
        state := newState
        state_history := s.state_history ++
          [{ from_state := s.state, to_state := newState,
             timestamp := now, metadata := metadata }]
        last_activity := now })
  else
    (false, s)

/-- `handleVADStart`: IDLE → LISTENING; in SPEAKING it falls through to the
interrupt handler (defined below, so inlined here); otherwise nothing. -/
def handleUserInterrupt (s : Session) (now : Int) : Session :=
  if s.state = SPEAKING ∨ s.state = ANSWERING then
    let s1 := (applyTransition s INTERRUPTED (TransMeta.interruptedState s.state) now).2
    { s1 with metrics :=
        { s1.metrics with interruption_count := s1.metrics.interruption_count + 1 } }
  else
    s

/-- `handleVADStart`. -/
def handleVADStart (s : Session) (now : Int) : Session :=
  if s.state = IDLE then
    (applyTransition s LISTENING TransMeta.noMeta now).2
  else if s.state = SPEAKING then
    handleUserInterrupt s now
  else
    s

/-- `handleVADEnd`: in LISTENING, transition to TRANSCRIBING recording the
audio-chunk count as metadata; in any other state nothing happens. -/
def handleVADEnd (s : Session) (now : Int) : Session :=
  if s.state = LISTENING then
    (applyTransition s TRANSCRIBING (TransMeta.audioChunks s.audio_buffer.length) now).2
  else
    s

/-- `handleUserAudio`: buffer the chunk; if IDLE also transition to
LISTENING. -/
def handleUserAudio (s : Session) (chunk : AudioChunk) (now : Int) : Session :=
  let s1 := { s with audio_buffer := s.audio_buffer ++ [chunk] }
  if s1.state = IDLE then
    (applyTransition s1 LISTENING TransMeta.noMeta now).2
  else
    s1

/-- `handleTranscriptionFinal`: in TRANSCRIBING, buffer the result,
transition to INTERPRETING (metadata carries the transcript text) and clear
the audio buffer; in any other state nothing happens. -/
def handleTranscriptionFinal (s : Session) (r : TranscriptionResult)
    (now : Int) : Session :=
  if s.state = TRANSCRIBING then
    let s1 := { s with transcript_buffer := s.transcript_buffer ++ [r] }
    let s2 := (applyTransition s1 INTERPRETING (TransMeta.transcript r.text) now).2
    { s2 with audio_buffer := [] }
  else
    s

/-- `handleLLMResponseComplete`: in INTERPRETING, stash the response and
transition to ANSWERING (metadata carries the response length). -/
def handleLLMResponseComplete (s : Session) (resp : LLMResponse)
    (now : Int) : Session :=
  if s.state = INTERPRETING then
    let s1 := { s with pending_response := some resp }
    (applyTransition s1 ANSWERING (TransMeta.responseLength resp.text.length) now).2
  else
    s

/-- `handleTTSStart`: in ANSWERING, store the stream id and transition to
SPEAKING. -/
def handleTTSStart (s : Session) (stream_id : String) (now : Int) : Session :=
  if s.state = ANSWERING then
    let s1 := { s with tts_stream_id := some stream_id }
    (applyTransition s1 SPEAKING TransMeta.noMeta now).2
  else
    s

/-- `handleTTSComplete`: in SPEAKING, transition to IDLE; if a
`current_turn` is pending, append it to the conversation history, increment
`total_turns` and clear it; finally clear the transcript buffer, the pending
response and the TTS stream handle. -/
def handleTTSComplete (s : Session) (now : Int) : Session :=
  if s.state = SPEAKING then
    let s1 := (applyTransition s IDLE TransMeta.noMeta now).2
    let s2 :=
      match s1.current_turn with
      | some t =>
        { s1 with
          conversation_history := s1.conversation_history ++ [t]
          metrics := { s1.metrics with total_turns := s1.metrics.total_turns + 1 }
          current_turn := none }
      | none => s1
    { s2 with
      transcript_buffer := []
      pending_response := none
      tts_stream_id := none }
  else
    s

/-- `handleError`: attempt a transition to ERROR (ignoring the result, as
the source does) and increment `error_count` unconditionally. -/
def handleError (s : Session) (msg : String) (now : Int) : Session :=
  let s1 := (applyTransition s ERROR (TransMeta.errorMsg msg) now).2
  { s1 with metrics :=
      { s1.metrics with error_count := s1.metrics.error_count + 1 } }

/-- The events dispatched by `handleEvent`.  `OTHER` stands for every event
type the switch forwards without a state change. -/
inductive FSMEvent where
  | VAD_START
  | VAD_END
  | USER_AUDIO (chunk : AudioChunk)
  | USER_INTERRUPT
  | TRANSCRIPTION_FINAL (r : TranscriptionResult)
  | LLM_RESPONSE_COMPLETE (resp : LLMResponse)
  | TTS_START (stream_id : String)
  | TTS_COMPLETE
  | ERROR_EVENT (msg : String)
  | OTHER
deriving DecidableEq, Repr

/-- The per-session body of `handleEvent`: bump `last_activity`, then
dispatch to the matching handler. -/
def handleEvent (s : Session) (e : FSMEvent) (now : Int) : Session :=
  let s0 := { s with last_activity := now }
  match e with
  | FSMEvent.VAD_START => handleVADStart s0 now
  | FSMEvent.VAD_END => handleVADEnd s0 now
  | FSMEvent.USER_AUDIO chunk => handleUserAudio s0 chunk now
  | FSMEvent.USER_INTERRUPT => handleUserInterrupt s0 now
  | FSMEvent.TRANSCRIPTION_FINAL r => handleTranscriptionFinal s0 r now
  | FSMEvent.LLM_RESPONSE_COMPLETE resp => handleLLMResponseComplete s0 resp now
  | FSMEvent.TTS_START sid => handleTTSStart s0 sid now
  | FSMEvent.TTS_COMPLETE => handleTTSComplete s0 now
  | FSMEvent.ERROR_EVENT msg => handleError s0 msg now
  | FSMEvent.OTHER => s0

/-- The session registry of `ConversationStateMachine` (`sessions: Map`),
as an association list keyed by session id. -/
structure Machine where
  sessions : List (String × Session)
deriving DecidableEq, Repr

/-- `getSession`. -/
def Machine.getSession (m : Machine) (sid : String) : Option Session :=
  m.sessions.lookup sid

/-- In-place update of one session (the source mutates the object held in
the map). -/
def Machine.setSession (m : Machine) (sid : String) (s : Session) : Machine :=
  { sessions := m.sessions.map (fun p => if p.1 = sid then (sid, s) else p) }

/-- The public `transitionTo(session_id, newState, metadata)`: an unknown
session id or an illegal transition returns `false` and changes nothing. -/
def transitionTo (m : Machine) (sid : String) (newState : ConversationState)
    (metadata : TransMeta) (now : Int) : Bool × Machine :=
  match m.getSession sid with
  | none => (false, m)
  | some s =>
    let r := applyTransition s newState metadata now
    if r.1 then (true, m.setSession sid r.2) else (false, m)

/-- The public `handleEvent(payload)`: an unknown session id is a no-op;
otherwise the per-session handler runs on the stored session. -/
def handleEventM (m : Machine) (sid : String) (e : FSMEvent) (now : Int) : Machine :=
  match m.getSession sid with
  | none => m
  | some s => m.setSession sid (handleEvent s e now)

/-- One step a live session can take: a dispatched FSM event, the 200 ms
interrupt-recovery timer of `handleUserInterrupt`, the 2 s error-recovery
timer of `handleError`, or the orchestrator setting `current_turn` at the
end of `processTurn` (`session.current_turn = turn`). -/
inductive Step where
  | evt (e : FSMEvent) (now : Int)
  | interruptTimer (now : Int)
  | errorTimer (now : Int)
  | setCurrentTurn (t : ConversationTurn)
deriving DecidableEq, Repr

/-- Apply one step to a session. -/
def applyStep (s : Session) : Step → Session
  | Step.evt e now => handleEvent s e now
  | Step.interruptTimer now =>
    if s.state = INTERRUPTED then (applyTransition s LISTENING TransMeta.noMeta now).2 else s
  | Step.errorTimer now =>
    if s.state = ERROR then (applyTransition s IDLE TransMeta.noMeta now).2 else s
  | Step.setCurrentTurn t => { s with current_turn := some t }

/-- Run a sequence of steps from a session. -/
def runSteps (s : Session) (steps : List Step) : Session :=
  steps.foldl applyStep s

/-- Count of SPEAKING → IDLE records in a state history. -/
def countSpeakingToIdle (h : List StateTransition) : Nat :=
  (h.filter (fun tr =>
    decide (tr.from_state = SPEAKING) && decide (tr.to_state = IDLE))).length

end VoiceFSM

namespace Orchestrator

/-- One `{role, content}` entry of the `messages` array built by
`getLLMResponse`. -/
structure ChatMessage where
  role : String
  content : String
deriving DecidableEq, Repr

/-- Role strings used by `getLLMResponse`. -/
def userRole : String := "user"

/-- Assistant role string. -/
def assistantRole : String := "assistant"

/-- The message-list construction of `getLLMResponse`:
`conversation_history.slice(-5)` (the last at-most-5 turns) pushed in order
as a user/assistant pair each, followed by the current user message.
JS `slice(-5)` on a shorter array yields the whole array, which matches
`drop (length - 5)` under truncated `Nat` subtraction. -/
def buildMessages (history : List VoiceFSM.ConversationTurn)
    (userText : String) : List ChatMessage :=
  let recentHistory := history.drop (history.length - 5)
  (recentHistory.foldl
    (fun acc turn =>
      acc ++ [{ role := userRole, content := turn.user_text },
              { role := assistantRole, content := turn.assistant_text }])
    []) ++ [{ role := userRole, content := userText }]

end Orchestrator

namespace VAD

/-- `calculateRMSEnergy`, squared: the mean of the squared samples after
normalising each 16-bit sample by 32768, computed over ℚ.  The source loop
`sum += (sample/32768)²` is the fold; `samples = buffer.length / 2` is the
sample count, which here is the length of the sample list. -/
def energySq (frame : List Int) : ℚ :=
  (frame.foldl (fun (sum : ℚ) (s : Int) => sum + ((s : ℚ) / 32768) ^ 2) 0) /
    (frame.length : ℚ)

/-- `calculateRMSEnergy`: the square root of `energySq`, as a real number
(`Math.sqrt(sum / samples)`). -/
noncomputable def calculateRMSEnergy (frame : List Int) : ℝ :=
  Real.sqrt (energySq frame)

/-- The speech test of `performVAD`, `energy > this.vadThreshold`, made
executable over ℚ: for a rational threshold `t` the strict comparison
`√(energySq frame) > t` holds exactly when `t < 0` or `t² < energySq frame`
(proved as `isSpeakingFrame_iff` below). -/
def isSpeakingFrame (frame : List Int) (t : ℚ) : Bool :=
  decide (t < 0 ∨ t ^ 2 < energySq frame)

/-- The per-session VAD bookkeeping of `WebRTCHandler`: `speaking` is
membership of the session in `audioStreams`, `timerArmed` membership in
`silenceTimers`. -/
structure VadState where
  speaking : Bool
  timerArmed : Bool
deriving DecidableEq, Repr

/-- Initial VAD bookkeeping: not speaking, no silence timer. -/
def initialVadState : VadState := { speaking := false, timerArmed := false }

/-- The events `performVAD` (and its silence timer) can emit. -/
inductive VadEvent where
  | speechStarted
  | speechEnded
deriving DecidableEq, Repr

/-- `performVAD` on one frame: above threshold, cancel any silence timer and
emit `speechStarted` if not already speaking; below (or at) threshold, arm
the silence timer if speaking and none is pending. -/
def performVAD (vs : VadState) (frame : List Int) (t : ℚ) :
    VadState × List VadEvent :=
  if isSpeakingFrame frame t then
    if vs.speaking then
      ({ vs with timerArmed := false }, [])
    else
      ({ speaking := true, timerArmed := false }, [VadEvent.speechStarted])
  else
    if vs.speaking && !vs.timerArmed then
      ({ vs with timerArmed := true }, [])
    else
      (vs, [])

/-- The silence-timer callback: it only exists while armed; when it fires it
clears both maps and emits `speechEnded`. -/
def silenceTimerFire (vs : VadState) : VadState × List VadEvent :=
  if vs.timerArmed then
    ({ speaking := false, timerArmed := false }, [VadEvent.speechEnded])
  else
    (vs, [])

/-- One step of the per-session VAD: a PCM frame arrives, or the pending
silence timer fires. -/
inductive VadStep where
  | frame (f : List Int)
  | timerFire
deriving DecidableEq, Repr

/-- Apply one VAD step. -/
def applyVadStep (t : ℚ) (vs : VadState) : VadStep → VadState × List VadEvent
  | VadStep.frame f => performVAD vs f t
  | VadStep.timerFire => silenceTimerFire vs

/-- Run a sequence of VAD steps, concatenating emitted events in order. -/
def vadRunFrom (t : ℚ) (vs : VadState) : List VadStep → VadState × List VadEvent
  | [] => (vs, [])
  | st :: rest =>
    let r1 := applyVadStep t vs st
    let r2 := vadRunFrom t r1.1 rest
    (r2.1, r1.2 ++ r2.2)

/-- Run VAD steps from the initial bookkeeping. -/
def vadRun (t : ℚ) (steps : List VadStep) : VadState × List VadEvent :=
  vadRunFrom t initialVadState steps

/-- `speechStarted` / `speechEnded` strictly alternate when read against a
current speaking flag: from `false` only `speechStarted` may come next, from
`true` only `speechEnded`. -/
def alternatesFrom : Bool → List VadEvent → Bool
  | _, [] => true
  | false, VadEvent.speechStarted :: rest => alternatesFrom true rest
  | true, VadEvent.speechEnded :: rest => alternatesFrom false rest
  | _, _ => false

end VAD

namespace VoiceFSM

/-- A fixed session id used in concrete examples. -/
def sid1 : String := "session-1"

/-- A one-session registry holding a fresh session, used in concrete
examples. -/
def machine1 : Machine := { sessions := [(sid1, initialSession 0)] }

/-- A whitespace-only transcription result. -/
def blankTranscription : TranscriptionResult := { text := "  " }

/-- A non-empty transcription result. -/
def helloTranscription : TranscriptionResult := { text := "hello" }

/-- A concrete LLM response. -/
def hiResponse : LLMResponse := { text := "hi there" }

/-- A concrete completed turn, as `processTurn` would build it. -/
def turn1 : ConversationTurn :=
  { turn_id := "turn-1", user_text := "hello", assistant_text := "hi there" }

/-- Event steps driving a fresh session to ANSWERING:
vad_started, vad_ended, transcription_final, llm_response_complete. -/
def stepsToAnswering : List Step :=
  [Step.evt FSMEvent.VAD_START 1,
   Step.evt FSMEvent.VAD_END 2,
   Step.evt (FSMEvent.TRANSCRIPTION_FINAL helloTranscription) 3,
   Step.evt (FSMEvent.LLM_RESPONSE_COMPLETE hiResponse) 4]

/-- `stepsToAnswering` continued through tts_started into SPEAKING. -/
def stepsToSpeaking : List Step :=
  stepsToAnswering ++ [Step.evt (FSMEvent.TTS_START ("stream-1")) 5]

/-- A full turn driven purely by FSM events (the orchestrator never writes
`current_turn` in this run): through SPEAKING and tts_complete back to IDLE. -/
def stepsFullTurn : List Step :=
  stepsToSpeaking ++ [Step.evt FSMEvent.TTS_COMPLETE 6]

end VoiceFSM

namespace VoiceFSM

/-! Field lemmas for `applyTransition`: which session fields a transition
request can and cannot touch. -/

theorem applyTransition_tts_stream_id (s : Session) (t : ConversationState)
    (m : TransMeta) (now : Int) :
    ((applyTransition s t m now).2).tts_stream_id = s.tts_stream_id := by
  unfold applyTransition
  split <;> rfl

theorem applyTransition_metrics (s : Session) (t : ConversationState)
    (m : TransMeta) (now : Int) :
    ((applyTransition s t m now).2).metrics = s.metrics := by
  unfold applyTransition
  split <;> rfl

theorem applyTransition_current_turn (s : Session) (t : ConversationState)
    (m : TransMeta) (now : Int) :
    ((applyTransition s t m now).2).current_turn = s.current_turn := by
  unfold applyTransition
  split <;> rfl

theorem applyTransition_state (s : Session) (t : ConversationState)
    (m : TransMeta) (now : Int) :
    ((applyTransition s t m now).2).state =
      if legalTransition s.state t then t else s.state := by
  unfold applyTransition
  split <;> simp_all

theorem applyTransition_state_history (s : Session) (t : ConversationState)
    (m : TransMeta) (now : Int) :
    ((applyTransition s t m now).2).state_history =
      if legalTransition s.state t then
        s.state_history ++
          [{ from_state := s.state, to_state := t, timestamp := now, metadata := m }]
      else s.state_history := by
  unfold applyTransition
  split <;> simp_all

theorem applyTransition_of_illegal (s : Session) (t : ConversationState)
    (m : TransMeta) (now : Int) (h : legalTransition s.state t = false) :
    applyTransition s t m now = (false, s) := by
  unfold applyTransition
  rw [h]
  rfl

/-- A helper: `countSpeakingToIdle` over an appended record. -/
theorem countSpeakingToIdle_append (h : List StateTransition)
    (tr : StateTransition) :
    countSpeakingToIdle (h ++ [tr]) =
      countSpeakingToIdle h +
        (if tr.from_state = ConversationState.SPEAKING ∧
            tr.to_state = ConversationState.IDLE then 1 else 0) := by
  unfold countSpeakingToIdle
  rw [List.filter_append, List.length_append]
  by_cases hs : tr.from_state = ConversationState.SPEAKING ∧
      tr.to_state = ConversationState.IDLE
  · simp [hs.1, hs.2]
  · rcases Decidable.not_and_iff_or_not.mp hs with h1 | h1 <;> simp [h1, hs]

/-- C1: a transition request outside the legal table (which covers every
request made in ENDED, whose row is absent from the rules map) makes
`transitionTo` return `false` and leaves the whole registry — in particular
the session's state and state history — unchanged; the session is not
terminated. -/
theorem C1_illegal_transition_noop (m : Machine) (sid : String) (s : Session)
    (t : ConversationState) (meta : TransMeta) (now : Int)
    (hs : m.getSession sid = some s)
    (hill : legalTransition s.state t = false) :
    transitionTo m sid t meta now = (false, m) ∧
      legalTransition ConversationState.ENDED t = false := by
  constructor
  · unfold transitionTo
    rw [hs]
    simp [applyTransition_of_illegal s t meta now hill]
  · rfl

/-- Witness for C1: requesting IDLE → SPEAKING on a fresh session is
rejected and the registry is untouched. -/
theorem C1_illegal_transition_noop_witness :
    transitionTo machine1 sid1 ConversationState.SPEAKING TransMeta.noMeta 7 =
      (false, machine1) ∧
      legalTransition ConversationState.ENDED ConversationState.SPEAKING = false :=
  C1_illegal_transition_noop machine1 sid1 (initialSession 0)
    ConversationState.SPEAKING TransMeta.noMeta 7 (by rfl) (by rfl)

/-- C9: an event or a transition request for a session id absent from the
registry is a complete no-op: `handleEvent` returns with nothing created or
mutated, and `transitionTo` returns `false` with the registry unchanged. -/
theorem C9_unknown_session_noop (m : Machine) (sid : String) (e : FSMEvent)
    (t : ConversationState) (meta : TransMeta) (now : Int)
    (h : m.getSession sid = none) :
    handleEventM m sid e now = m ∧ transitionTo m sid t meta now = (false, m) := by
  constructor
  · unfold handleEventM
    rw [h]
  · unfold transitionTo
    rw [h]

/-- Witness for C9: an unknown id against the one-session registry. -/
theorem C9_unknown_session_noop_witness :
    handleEventM machine1 ("nope") FSMEvent.VAD_START 3 = machine1 ∧
      transitionTo machine1 ("nope") ConversationState.LISTENING
        TransMeta.noMeta 3 = (false, machine1) :=
  C9_unknown_session_noop machine1 ("nope") FSMEvent.VAD_START
    ConversationState.LISTENING TransMeta.noMeta 3 (by rfl)

end VoiceFSM

namespace VoiceFSM

/-- Counterexample for C2: drive a fresh session to TRANSCRIBING and deliver
a whitespace-only final transcription.  The claim requires a transition to
LISTENING with buffers cleared; the code transitions to INTERPRETING
(`handleTranscriptionFinal` never inspects the text). -/
theorem C2_whitespace_transcription_cex :
    (runSteps (initialSession 0)
      [Step.evt FSMEvent.VAD_START 1, Step.evt FSMEvent.VAD_END 2]).state =
      ConversationState.TRANSCRIBING ∧
    blankTranscription.text.data.all Char.isWhitespace = true ∧
    (handleEvent
      (runSteps (initialSession 0)
        [Step.evt FSMEvent.VAD_START 1, Step.evt FSMEvent.VAD_END 2])
      (FSMEvent.TRANSCRIPTION_FINAL blankTranscription) 3).state =
      ConversationState.INTERPRETING ∧
    (handleEvent
      (runSteps (initialSession 0)
        [Step.evt FSMEvent.VAD_START 1, Step.evt FSMEvent.VAD_END 2])
      (FSMEvent.TRANSCRIPTION_FINAL blankTranscription) 3).state ≠
      ConversationState.LISTENING := by
  refine ⟨rfl, by decide, rfl, by decide⟩

/-- C2 as amended: in TRANSCRIBING, `transcription_final(text)` transitions
to INTERPRETING regardless of the text (the emptiness check lives only in
the orchestrator's `processTurn`, downstream of the already-emitted event);
the result is appended to the transcript buffer, the audio buffer is
cleared, `total_turns` is not incremented, and the appended record carries
the transcript as metadata. -/
theorem C2_transcription_final_always_interpreting (s : Session)
    (r : TranscriptionResult) (now : Int)
    (h : s.state = ConversationState.TRANSCRIBING) :
    (handleEvent s (FSMEvent.TRANSCRIPTION_FINAL r) now).state =
      ConversationState.INTERPRETING ∧
    (handleEvent s (FSMEvent.TRANSCRIPTION_FINAL r) now).transcript_buffer =
      s.transcript_buffer ++ [r] ∧
    (handleEvent s (FSMEvent.TRANSCRIPTION_FINAL r) now).audio_buffer = [] ∧
    (handleEvent s (FSMEvent.TRANSCRIPTION_FINAL r) now).metrics.total_turns =
      s.metrics.total_turns ∧
    (handleEvent s (FSMEvent.TRANSCRIPTION_FINAL r) now).state_history =
      s.state_history ++
        [{ from_state := ConversationState.TRANSCRIBING,
           to_state := ConversationState.INTERPRETING,
           timestamp := now, metadata := TransMeta.transcript r.text }] := by
  unfold handleEvent handleTranscriptionFinal
  simp only [h]
  unfold applyTransition legalTransition transitionRules
  simp [h]

/-- Witness for C2 as amended, at a whitespace-only transcription delivered
to a concrete session in TRANSCRIBING. -/
theorem C2_transcription_final_always_interpreting_witness :
    (handleEvent
      (runSteps (initialSession 0)
        [Step.evt FSMEvent.VAD_START 1, Step.evt FSMEvent.VAD_END 2])
      (FSMEvent.TRANSCRIPTION_FINAL blankTranscription) 3).state =
      ConversationState.INTERPRETING ∧
    (handleEvent
      (runSteps (initialSession 0)
        [Step.evt FSMEvent.VAD_START 1, Step.evt FSMEvent.VAD_END 2])
      (FSMEvent.TRANSCRIPTION_FINAL blankTranscription) 3).audio_buffer = [] :=
  ⟨(C2_transcription_final_always_interpreting _ blankTranscription 3 (by rfl)).1,
   (C2_transcription_final_always_interpreting _ blankTranscription 3 (by rfl)).2.2.1⟩

/-- Counterexample for C3: a fresh session driven to LISTENING has an empty
audio buffer; `vad_ended` there transitions to TRANSCRIBING, not to IDLE as
the claim requires for an empty buffer (`handleVADEnd` never inspects the
buffer beyond recording its length). -/
theorem C3_vad_end_empty_buffer_cex :
    (runSteps (initialSession 0) [Step.evt FSMEvent.VAD_START 1]).state =
      ConversationState.LISTENING ∧
    (runSteps (initialSession 0) [Step.evt FSMEvent.VAD_START 1]).audio_buffer = [] ∧
    (handleEvent (runSteps (initialSession 0) [Step.evt FSMEvent.VAD_START 1])
      FSMEvent.VAD_END 2).state = ConversationState.TRANSCRIBING ∧
    (handleEvent (runSteps (initialSession 0) [Step.evt FSMEvent.VAD_START 1])
      FSMEvent.VAD_END 2).state ≠ ConversationState.IDLE := by
  refine ⟨rfl, rfl, rfl, by decide⟩

/-- C3 as amended: in LISTENING, `vad_ended` transitions to TRANSCRIBING
whether or not the audio buffer is empty; the appended record carries the
chunk count as metadata.  No LISTENING → IDLE branch exists. -/
theorem C3_vad_end_always_transcribing (s : Session) (now : Int)
    (h : s.state = ConversationState.LISTENING) :
    (handleEvent s FSMEvent.VAD_END now).state =
      ConversationState.TRANSCRIBING ∧
    (handleEvent s FSMEvent.VAD_END now).state_history =
      s.state_history ++
        [{ from_state := ConversationState.LISTENING,
           to_state := ConversationState.TRANSCRIBING,
           timestamp := now,
           metadata := TransMeta.audioChunks s.audio_buffer.length }] := by
  unfold handleEvent handleVADEnd
  simp only [h]
  unfold applyTransition legalTransition transitionRules
  simp [h]

/-- Witness for C3 as amended at a concrete LISTENING session with an empty
buffer. -/
theorem C3_vad_end_always_transcribing_witness :
    (handleEvent (runSteps (initialSession 0) [Step.evt FSMEvent.VAD_START 1])
      FSMEvent.VAD_END 2).state = ConversationState.TRANSCRIBING :=
  (C3_vad_end_always_transcribing _ 2 (by rfl)).1

/-- C5: `user_interrupt` in ANSWERING or SPEAKING transitions to
INTERRUPTED, increments `interruption_count` by exactly one, and records the
pre-interrupt state as metadata on the appended transition; in every other
state (including INTERRUPTED itself) it changes neither the state, nor the
history, nor the counter — so of two back-to-back interrupts only the first
produces an INTERRUPTED transition. -/
theorem C5_user_interrupt_protocol :
    (∀ (s : Session) (now : Int),
      s.state = ConversationState.ANSWERING ∨
        s.state = ConversationState.SPEAKING →
      (handleEvent s FSMEvent.USER_INTERRUPT now).state =
        ConversationState.INTERRUPTED ∧
      (handleEvent s FSMEvent.USER_INTERRUPT now).metrics.interruption_count =
        s.metrics.interruption_count + 1 ∧
      (handleEvent s FSMEvent.USER_INTERRUPT now).state_history =
        s.state_history ++
          [{ from_state := s.state, to_state := ConversationState.INTERRUPTED,
             timestamp := now, metadata := TransMeta.interruptedState s.state }]) ∧
    (∀ (s : Session) (now : Int),
      ¬(s.state = ConversationState.ANSWERING ∨
          s.state = ConversationState.SPEAKING) →
      (handleEvent s FSMEvent.USER_INTERRUPT now).state = s.state ∧
      (handleEvent s FSMEvent.USER_INTERRUPT now).metrics.interruption_count =
        s.metrics.interruption_count ∧
      (handleEvent s FSMEvent.USER_INTERRUPT now).state_history =
        s.state_history) := by
  constructor
  · intro s now h
    unfold handleEvent handleUserInterrupt
    rcases h with h | h <;>
      · simp only [h]
        unfold applyTransition legalTransition transitionRules
        simp [h]
  · intro s now h
    rw [show handleEvent s FSMEvent.USER_INTERRUPT now =
        handleUserInterrupt { s with last_activity := now } now from rfl]
    unfold handleUserInterrupt
    rw [if_neg (fun hc => h (hc.elim (fun a => Or.inr a) (fun b => Or.inl b)))]
    exact ⟨rfl, rfl, rfl⟩

/-- Witness for C5: a concrete session in SPEAKING takes exactly one
INTERRUPTED transition under two back-to-back interrupts. -/
theorem C5_user_interrupt_protocol_witness :
    ((handleEvent (runSteps (initialSession 0) stepsToSpeaking)
      FSMEvent.USER_INTERRUPT 6).state = ConversationState.INTERRUPTED ∧
      (handleEvent (runSteps (initialSession 0) stepsToSpeaking)
        FSMEvent.USER_INTERRUPT 6).metrics.interruption_count =
        (runSteps (initialSession 0) stepsToSpeaking).metrics.interruption_count
          + 1) ∧
    (handleEvent (handleEvent (runSteps (initialSession 0) stepsToSpeaking)
      FSMEvent.USER_INTERRUPT 6) FSMEvent.USER_INTERRUPT 7).state_history =
      (handleEvent (runSteps (initialSession 0) stepsToSpeaking)
        FSMEvent.USER_INTERRUPT 6).state_history :=
  ⟨⟨(C5_user_interrupt_protocol.1 _ 6 (Or.inr (by rfl))).1,
    (C5_user_interrupt_protocol.1 _ 6 (Or.inr (by rfl))).2.1⟩,
   (C5_user_interrupt_protocol.2 _ 7 (by
      rw [(C5_user_interrupt_protocol.1 _ 6 (Or.inr (by rfl))).1]
      decide)).2.2⟩

end VoiceFSM

namespace VoiceFSM

/-- Preservation lemma: no step can put a session into SPEAKING without a
TTS stream handle — the only entry into SPEAKING is `handleTTSStart`, which
stores the handle first. -/
theorem step_preserves_speaking_handle (s : Session) (st : Step)
    (h : s.state = ConversationState.SPEAKING → s.tts_stream_id.isSome = true) :
    (applyStep s st).state = ConversationState.SPEAKING →
      (applyStep s st).tts_stream_id.isSome = true := by
  cases st with
  | evt e now =>
    cases e <;> cases hs : s.state <;>
      rcases hct : s.current_turn with _ | ct <;>
      simp_all [applyStep, handleEvent, handleVADStart, handleVADEnd,
        handleUserAudio, handleUserInterrupt, handleTranscriptionFinal,
        handleLLMResponseComplete, handleTTSStart, handleTTSComplete,
        handleError, applyTransition, legalTransition, transitionRules]
  | interruptTimer now =>
    cases hs : s.state <;>
      simp_all [applyStep, applyTransition, legalTransition, transitionRules]
  | errorTimer now =>
    cases hs : s.state <;>
      simp_all [applyStep, applyTransition, legalTransition, transitionRules]
  | setCurrentTurn t =>
    simp_all [applyStep]

/-- Run lemma: the SPEAKING-implies-handle invariant is preserved along any
step sequence. -/
theorem runSteps_preserves_speaking_handle :
    ∀ (steps : List Step) (s : Session),
      (s.state = ConversationState.SPEAKING → s.tts_stream_id.isSome = true) →
      ((runSteps s steps).state = ConversationState.SPEAKING →
        (runSteps s steps).tts_stream_id.isSome = true)
  | [], _, h => h
  | st :: rest, s, h =>
    runSteps_preserves_speaking_handle rest (applyStep s st)
      (step_preserves_speaking_handle s st h)

end VoiceFSM

namespace VoiceFSM

/-- Counterexample for C4: a session reachable by FSM events alone refutes
the claimed iff in both directions.  After llm_response_complete the state
is ANSWERING yet `tts_stream_id` is absent (it is only set on entering
SPEAKING); after a barge-in from SPEAKING the state is INTERRUPTED yet the
handle is still present (`handleUserInterrupt` never clears it). -/
theorem C4_tts_handle_iff_cex :
    (runSteps (initialSession 0) stepsToAnswering).state =
      ConversationState.ANSWERING ∧
    (runSteps (initialSession 0) stepsToAnswering).tts_stream_id = none ∧
    (runSteps (initialSession 0)
      (stepsToSpeaking ++ [Step.evt FSMEvent.USER_INTERRUPT 6])).state =
      ConversationState.INTERRUPTED ∧
    (runSteps (initialSession 0)
      (stepsToSpeaking ++ [Step.evt FSMEvent.USER_INTERRUPT 6])).tts_stream_id =
      some ("stream-1") := by
  refine ⟨rfl, rfl, rfl, rfl⟩

/-- C4 as amended: on every session reachable from creation,
`tts_stream_handle` is present whenever the state is SPEAKING.  The full
claimed iff fails: the handle is set only on the ANSWERING → SPEAKING
transition (so it is absent while ANSWERING until tts_started), and it is
cleared only by tts_complete (so after a barge-in it may remain present in
INTERRUPTED and later states). -/
theorem C4_handle_present_when_speaking (n : Int) (steps : List Step)
    (h : (runSteps (initialSession n) steps).state = ConversationState.SPEAKING) :
    (runSteps (initialSession n) steps).tts_stream_id.isSome = true :=
  runSteps_preserves_speaking_handle steps (initialSession n)
    (fun hbad => absurd hbad (by simp [initialSession])) h

/-- Witness for C4 as amended: a concrete run into SPEAKING carries a
handle. -/
theorem C4_handle_present_when_speaking_witness :
    (runSteps (initialSession 0) stepsToSpeaking).tts_stream_id.isSome = true :=
  C4_handle_present_when_speaking 0 stepsToSpeaking (by rfl)

/-- Preservation lemma for the turn counter: every step keeps
`total_turns ≤` the number of SPEAKING → IDLE records, because the only
increment site (`handleTTSComplete` with a pending `current_turn`) also
appends a SPEAKING → IDLE record. -/
theorem step_preserves_turns_le (s : Session) (st : Step)
    (h : s.metrics.total_turns ≤ countSpeakingToIdle s.state_history) :
    (applyStep s st).metrics.total_turns ≤
      countSpeakingToIdle (applyStep s st).state_history := by
  cases st with
  | evt e now =>
    cases e <;> cases hs : s.state <;>
      rcases hct : s.current_turn with _ | ct <;>
      simp_all [applyStep, handleEvent, handleVADStart, handleVADEnd,
        handleUserAudio, handleUserInterrupt, handleTranscriptionFinal,
        handleLLMResponseComplete, handleTTSStart, handleTTSComplete,
        handleError, applyTransition, legalTransition, transitionRules,
        countSpeakingToIdle_append] <;>
      try omega
  | interruptTimer now =>
    cases hs : s.state <;>
      simp_all [applyStep, applyTransition, legalTransition, transitionRules,
        countSpeakingToIdle_append]
  | errorTimer now =>
    cases hs : s.state <;>
      simp_all [applyStep, applyTransition, legalTransition, transitionRules,
        countSpeakingToIdle_append]
  | setCurrentTurn t =>
    simp_all [applyStep]

/-- Run lemma for the turn counter bound. -/
theorem runSteps_preserves_turns_le :
    ∀ (steps : List Step) (s : Session),
      s.metrics.total_turns ≤ countSpeakingToIdle s.state_history →
      (runSteps s steps).metrics.total_turns ≤
        countSpeakingToIdle (runSteps s steps).state_history
  | [], _, h => h
  | st :: rest, s, h =>
    runSteps_preserves_turns_le rest (applyStep s st)
      (step_preserves_turns_le s st h)

/-- Counterexample for C6: one full turn driven purely by FSM events (the
orchestrator never wrote `current_turn`) records a SPEAKING → IDLE
transition yet leaves `total_turns` at 0, refuting the claimed equality. -/
theorem C6_total_turns_equality_cex :
    (runSteps (initialSession 0) stepsFullTurn).metrics.total_turns = 0 ∧
    countSpeakingToIdle
      (runSteps (initialSession 0) stepsFullTurn).state_history = 1 := by
  refine ⟨rfl, rfl⟩

/-- C6 as amended: on every session reachable from creation (by FSM events,
the recovery timers, and the orchestrator's `current_turn` write),
`total_turns` is at most the number of SPEAKING → IDLE transitions in the
state history; equality holds only when `current_turn` was pending at each
tts_complete, since `handleTTSComplete` increments the counter only then. -/
theorem C6_total_turns_le_speaking_idle (n : Int) (steps : List Step) :
    (runSteps (initialSession n) steps).metrics.total_turns ≤
      countSpeakingToIdle (runSteps (initialSession n) steps).state_history :=
  runSteps_preserves_turns_le steps (initialSession n) (by simp [initialSession, countSpeakingToIdle])

end VoiceFSM

namespace VAD

/-- Folding the squared-sample sum equals summing the mapped squares. -/
theorem foldl_sq_eq_sum (l : List Int) :
    ∀ a : ℚ, l.foldl (fun (sum : ℚ) (s : Int) => sum + ((s : ℚ) / 32768) ^ 2) a =
      a + (l.map (fun (s : Int) => ((s : ℚ) / 32768) ^ 2)).sum := by
  induction l with
  | nil => intro a; simp
  | cons x xs ih => intro a; simp [ih, add_assoc]

/-- The mean of squares is nonnegative. -/
theorem energySq_nonneg (frame : List Int) : 0 ≤ energySq frame := by
  unfold energySq
  apply div_nonneg
  · rw [foldl_sq_eq_sum, zero_add]
    apply List.sum_nonneg
    intro q hq
    rcases List.mem_map.mp hq with ⟨s, _, rfl⟩
    positivity
  · exact_mod_cast Nat.zero_le _

/-- Fidelity of the executable speech test: it decides the strict
comparison `energy > threshold` of the source. -/
theorem isSpeakingFrame_iff (frame : List Int) (t : ℚ) :
    isSpeakingFrame frame t = true ↔ (t : ℝ) < calculateRMSEnergy frame := by
  unfold isSpeakingFrame calculateRMSEnergy
  rw [decide_eq_true_iff]
  constructor
  · intro h
    rcases h with h | h
    · exact lt_of_lt_of_le (by exact_mod_cast h) (Real.sqrt_nonneg _)
    · rcases lt_or_le t 0 with ht | ht
      · exact lt_of_lt_of_le (by exact_mod_cast ht) (Real.sqrt_nonneg _)
      · refine (Real.lt_sqrt (by exact_mod_cast ht)).mpr ?_
        exact_mod_cast h
  · intro h
    rcases lt_or_le t 0 with ht | ht
    · exact Or.inl ht
    · refine Or.inr ?_
      have := (Real.lt_sqrt (by exact_mod_cast ht)).mp h
      push_cast at this
      exact_mod_cast this

/-- C7: the VAD's frame energy is the square root of the mean of the
squared samples normalised by 32768, a frame counts as speech exactly when
that energy strictly exceeds the threshold, and a frame whose energy equals
the threshold is classified silence: `performVAD` emits nothing on it, and
if the session was speaking with no silence timer pending, it arms the
timer. -/
theorem C7_vad_energy_and_strict_threshold (frame : List Int) (t : ℚ)
    (vs : VadState) (heq : calculateRMSEnergy frame = (t : ℝ)) :
    calculateRMSEnergy frame =
      Real.sqrt ((((frame.map (fun (s : Int) => ((s : ℚ) / 32768) ^ 2)).sum /
        (frame.length : ℚ) : ℚ) : ℝ)) ∧
    (∀ t' : ℚ, isSpeakingFrame frame t' = true ↔
      (t' : ℝ) < calculateRMSEnergy frame) ∧
    isSpeakingFrame frame t = false ∧
    (performVAD vs frame t).2 = [] ∧
    (vs.speaking = true → vs.timerArmed = false →
      (performVAD vs frame t).1.timerArmed = true) := by
  have hfalse : isSpeakingFrame frame t = false := by
    rw [Bool.eq_false_iff]
    intro hc
    exact absurd (heq ▸ (isSpeakingFrame_iff frame t).mp hc) (lt_irrefl _)
  refine ⟨?_, isSpeakingFrame_iff frame, hfalse, ?_, ?_⟩
  · unfold calculateRMSEnergy energySq
    rw [foldl_sq_eq_sum, zero_add]
  · unfold performVAD
    rw [hfalse]
    simp only [Bool.false_eq_true, if_false]
    split <;> rfl
  · intro hsp hta
    unfold performVAD
    rw [hfalse]
    simp [hsp, hta]

/-- Witness for C7 at the frame `[16384]`, whose energy is exactly `1/2`:
with threshold `1/2` the frame is silence and arms the silence timer of a
speaking session. -/
theorem C7_vad_energy_and_strict_threshold_witness :
    isSpeakingFrame [16384] (1 / 2) = false ∧
    (performVAD { speaking := true, timerArmed := false } [16384]
      (1 / 2)).1.timerArmed = true := by
  have heq : calculateRMSEnergy [16384] = (((1 : ℚ) / 2 : ℚ) : ℝ) := by
    have h4 : energySq [16384] = 1 / 4 := by
      unfold energySq
      simp only [List.foldl]
      norm_num
    rw [calculateRMSEnergy, h4]
    rw [show (((1 : ℚ) / 4 : ℚ) : ℝ) = ((1 : ℝ) / 2) ^ 2 by push_cast; norm_num]
    rw [Real.sqrt_sq (by norm_num)]
    norm_num
  exact ⟨(C7_vad_energy_and_strict_threshold [16384] (1 / 2)
      { speaking := true, timerArmed := false } heq).2.2.1,
    (C7_vad_energy_and_strict_threshold [16384] (1 / 2)
      { speaking := true, timerArmed := false } heq).2.2.2.2 rfl rfl⟩

/-- `alternatesFrom` of the empty trace. -/
theorem alternatesFrom_nil (b : Bool) : alternatesFrom b [] = true := by
  cases b <;> rfl

/-- The armed-implies-speaking invariant of the VAD bookkeeping is
preserved by every step. -/
theorem vadStep_armed_speaking (t : ℚ) (vs : VadState) (st : VadStep)
    (h : vs.timerArmed = true → vs.speaking = true) :
    (applyVadStep t vs st).1.timerArmed = true →
      (applyVadStep t vs st).1.speaking = true := by
  cases st with
  | frame f =>
    unfold applyVadStep performVAD
    by_cases hsf : isSpeakingFrame f t = true
    · simp only [hsf, if_true]
      cases hsp : vs.speaking <;> simp
    · rw [Bool.not_eq_true] at hsf
      simp only [hsf, Bool.false_eq_true, if_false]
      cases hsp : vs.speaking <;> cases hta : vs.timerArmed <;> simp_all
  | timerFire =>
    unfold applyVadStep silenceTimerFire
    cases hta : vs.timerArmed <;> simp_all

/-- Main alternation lemma: starting from bookkeeping satisfying
armed-implies-speaking, the events emitted by any step sequence alternate
relative to the current speaking flag. -/
theorem vadRunFrom_alternates (t : ℚ) (steps : List VadStep) :
    ∀ vs : VadState, (vs.timerArmed = true → vs.speaking = true) →
      alternatesFrom vs.speaking (vadRunFrom t vs steps).2 = true := by
  induction steps with
  | nil => intro vs _; exact alternatesFrom_nil vs.speaking
  | cons st rest ih =>
    intro vs h
    have hnext := vadStep_armed_speaking t vs st h
    cases st with
    | frame f =>
      unfold vadRunFrom applyVadStep performVAD
      unfold applyVadStep performVAD at hnext
      by_cases hsf : isSpeakingFrame f t = true
      · simp only [hsf, if_true] at hnext ⊢
        cases hsp : vs.speaking
        · simp only [hsp, Bool.false_eq_true, if_false]
          have := ih { speaking := true, timerArmed := false } (fun _ => rfl)
          simpa [alternatesFrom] using this
        · simp only [hsp, if_true]
          have := ih { vs with timerArmed := false } (fun _ => hsp)
          simpa [hsp] using this
      · rw [Bool.not_eq_true] at hsf
        simp only [hsf, Bool.false_eq_true, if_false] at hnext ⊢
        cases hb : (vs.speaking && !vs.timerArmed)
        · simp only [hb, Bool.false_eq_true, if_false]
          have := ih vs h
          simpa using this
        · simp only [hb, if_true]
          have hsp : vs.speaking = true := by
            simp only [Bool.and_eq_true] at hb
            exact hb.1
          have := ih { vs with timerArmed := true } (fun _ => hsp)
          simpa [hsp] using this
    | timerFire =>
      unfold vadRunFrom applyVadStep silenceTimerFire
      cases hta : vs.timerArmed
      · simp only [hta, Bool.false_eq_true, if_false]
        have := ih vs h
        simpa using this
      · simp only [hta, if_true]
        have hsp : vs.speaking = true := h hta
        have := ih { speaking := false, timerArmed := false } (fun hc => by cases hc)
        rw [hsp]
        simpa [alternatesFrom] using this

/-- C10: over any ordered sequence of frames and silence-timer firings, the
emitted `speech_started` / `speech_ended` events strictly alternate starting
from not-speaking (so two consecutive VAD_STARTs without an intervening
VAD_END are impossible), and a supra-threshold frame always leaves the
silence timer cancelled. -/
theorem C10_vad_events_alternate (t : ℚ) (steps : List VadStep) :
    alternatesFrom false (vadRun t steps).2 = true ∧
    (∀ (vs : VadState) (f : List Int), isSpeakingFrame f t = true →
      (performVAD vs f t).1.timerArmed = false) := by
  constructor
  · exact vadRunFrom_alternates t steps initialVadState (fun hc => by cases hc)
  · intro vs f hsf
    unfold performVAD
    rw [hsf]
    simp only [if_true]
    cases vs.speaking <;> simp

/-- Witness for C10: the loud frame `[20000]` against the default threshold
`1/100` cancels a pending silence timer, and the two-frame run
loud-then-loud emits exactly one `speech_started`. -/
theorem C10_vad_events_alternate_witness :
    (performVAD { speaking := true, timerArmed := true } [20000]
      (1 / 100)).1.timerArmed = false ∧
    alternatesFrom false
      (vadRun (1 / 100) [VadStep.frame [20000], VadStep.frame [20000]]).2 =
      true := by
  have hsf : isSpeakingFrame [20000] (1 / 100) = true := by
    unfold isSpeakingFrame energySq
    simp only [List.foldl, decide_eq_true_eq]
    right
    norm_num
  exact ⟨(C10_vad_events_alternate (1 / 100) []).2
      { speaking := true, timerArmed := true } [20000] hsf,
    (C10_vad_events_alternate (1 / 100)
      [VadStep.frame [20000], VadStep.frame [20000]]).1⟩

end VAD

namespace Orchestrator

/-- The message-accumulating loop of `getLLMResponse` is the two-element
flat-map of the turn list. -/
theorem foldl_pairs_eq_bind (l : List VoiceFSM.ConversationTurn) :
    ∀ acc : List ChatMessage,
      l.foldl
        (fun acc turn =>
          acc ++ [{ role := userRole, content := turn.user_text },
                  { role := assistantRole, content := turn.assistant_text }])
        acc =
      acc ++ l.flatMap (fun turn =>
        [{ role := userRole, content := turn.user_text },
         { role := assistantRole, content := turn.assistant_text }]) := by
  induction l with
  | nil => intro acc; simp
  | cons x xs ih => intro acc; simp [ih]

/-- C8: the reasoning request is built from at most the last 5 completed
turns — a suffix of the conversation history, hence in chronological
order — each contributing a user message then an assistant message, and
the new user text is appended as the final user message. -/
theorem C8_llm_messages_shape (h : List VoiceFSM.ConversationTurn)
    (u : String) :
    buildMessages h u =
      (h.drop (h.length - 5)).flatMap
        (fun turn =>
          [{ role := userRole, content := turn.user_text },
           { role := assistantRole, content := turn.assistant_text }]) ++
        [{ role := userRole, content := u }] ∧
    (h.drop (h.length - 5)).length ≤ 5 ∧
    (h.drop (h.length - 5)) <:+ h ∧
    (buildMessages h u).getLast? = some { role := userRole, content := u } := by
  have hmain : buildMessages h u =
      (h.drop (h.length - 5)).flatMap
        (fun turn =>
          [{ role := userRole, content := turn.user_text },
           { role := assistantRole, content := turn.assistant_text }]) ++
        [{ role := userRole, content := u }] := by
    unfold buildMessages
    simp only [foldl_pairs_eq_bind, List.nil_append]
  refine ⟨hmain, ?_, List.drop_suffix _ _, ?_⟩
  · rw [List.length_drop]
    omega
  · rw [hmain]
    exact List.getLast?_concat _

end Orchestrator
